import Mathlib

/-!
Verification of the connector control-plane client of the
`fivetran-hvr-manager` repository.

The development shallowly embeds the two core layers:
* `FivetranClient` (src/backend/fivetran_client.py): the transport client
  issuing authenticated HTTP requests, modelled relative to an oracle
  `Http` standing for the `requests` library plus the network;
* `FivetranAPI` (src/backend/api.py): the domain service that reshapes raw
  payloads and wraps mutating/test operations into uniform result objects.

Python dictionaries coming back from `response.json()` are modelled by the
`Json` type; Python exceptions are modelled by the `Except String` monad,
where the carried string is what `str(e)` yields for the exception.
-/

/-- JSON values as produced by `response.json()` (Python objects:
`None`, `bool`, numbers, `str`, `list`, `dict`). Object fields keep
insertion order, as Python dict literals do. -/
inductive Json where
  | null
  | bool (b : Bool)
  | num (n : Int)
  | str (s : String)
  | arr (elems : List Json)
  | obj (fields : List (String × Json))

/-- A Python dictionary value: an ordered association list. -/
abbrev Obj := List (String × Json)

/-- Python truthiness (`bool(x)`) of a JSON value: `None`, `False`, `0`,
`""`, `[]` and `\x7b\x7d` are falsy, everything else truthy. -/
def Json.truthy : Json → Bool
  | .null => false
  | .bool b => b
  | .num n => n != 0
  | .str s => !(s == "")
  | .arr xs => !xs.isEmpty
  | .obj fs => !fs.isEmpty

/-- Python `value.get(key)` (default `None`): succeeds on a dictionary,
raises `AttributeError` on any other receiver. -/
def Json.get : Json → String → Except String Json
  | .obj fs, k => .ok ((fs.lookup k).getD .null)
  | _, _ => .error "AttributeError: object has no attribute get"

/-- Python `value.get(key, default)`: succeeds on a dictionary, raises
`AttributeError` on any other receiver. -/
def Json.getD : Json → String → Json → Except String Json
  | .obj fs, k, d => .ok ((fs.lookup k).getD d)
  | _, _, _ => .error "AttributeError: object has no attribute get"

/-- Python iteration `for x in value`: lists yield their elements, strings
their characters, dictionaries their keys; other values raise `TypeError`. -/
def Json.pyIter : Json → Except String (List Json)
  | .arr xs => .ok xs
  | .str s => .ok (s.toList.map fun c => Json.str (String.singleton c))
  | .obj fs => .ok (fs.map fun kv => Json.str kv.1)
  | _ => .error "TypeError: object is not iterable"

/-- Python `dict.get(key)` with default `None` on a dictionary that is
statically known to be one (used for records built by the domain service). -/
def objGet (fs : Obj) (k : String) : Json :=
  (fs.lookup k).getD Json.null

/-- One HTTP request as handed to `requests.request` in
`FivetranClient._make_request`: method, full URL, optional JSON body and
the timeout passed along. Credentials are attached uniformly to every
request and play no role in the verified behavior, so they are omitted. -/
structure Request where
  method : String
  url : String
  body : Option Obj
  timeout : Nat

/-- What the network does with one request: either a transport-level
failure (DNS, refused connection, timeout — a `requests` `RequestException`
carrying a cause string) or an HTTP response with a status code and a
parsed JSON body. -/
inductive HttpOutcome where
  | netFail (cause : String)
  | response (status : Nat) (body : Json)

/-- The environment: the `requests` library plus the remote service,
as one oracle from requests to outcomes. -/
def Http := Request → HttpOutcome

/-- Fixed base endpoint (fivetran_client.py line 16). -/
def FivetranClient.BASE_URL : String := "https://api.fivetran.com/v1"

/-- The request `_make_request` builds for a method, endpoint and optional
payload (fivetran_client.py lines 47–58): URL is base/endpoint, and the
timeout is the hard-coded 30. -/
def mkRequest (method endpoint : String) (data : Option Obj) : Request :=
  ⟨method, FivetranClient.BASE_URL ++ "/" ++ endpoint, data, 30⟩

/-- Semantics of `requests.Response.raise_for_status` (called at fivetran_client.py
line 59): raises `HTTPError` exactly for 4xx and 5xx status codes. -/
def raiseForStatus (status : Nat) : Except String Unit :=
  if 400 ≤ status ∧ status < 600 then
    .error ("HTTPError: status " ++ toString status)
  else
    .ok ()

/-- Embeds `FivetranClient._make_request` (fivetran_client.py lines 30–63): issue
the request; a `RequestException` from the transport is logged and
re-raised; a 4xx/5xx response raises through `raise_for_status`; otherwise
the parsed JSON body is returned unmodified. -/
def FivetranClient.make_request (http : Http) (method endpoint : String)
    (data : Option Obj) : Except String Json :=
  match http (mkRequest method endpoint data) with
  | .netFail cause => .error cause
  | .response status body =>
    match raiseForStatus status with
    | .error e => .error e
    | .ok _ => .ok body

/-- Endpoint selection of `FivetranClient.list_connectors`
(fivetran_client.py lines 75–78): the group-scoped path is chosen only
when `group_id` is truthy, i.e. present and non-empty. -/
def connectorsEndpoint : Option String → String
  | some g => if g = "" then "connectors" else "groups/" ++ g ++ "/connectors"
  | none => "connectors"

/-- Embeds `FivetranClient.list_connectors` (fivetran_client.py lines 65–81):
GET the (possibly group-scoped) connectors list and unwrap
`response.get("data", \x7b\x7d).get("items", [])`. -/
def FivetranClient.list_connectors (http : Http) (group_id : Option String) :
    Except String Json := do
  let response ← FivetranClient.make_request http "GET" (connectorsEndpoint group_id) none
  let data ← response.getD "data" (Json.obj [])
  data.getD "items" (Json.arr [])

/-- Embeds `FivetranClient.get_connector` (fivetran_client.py lines 83–94). -/
def FivetranClient.get_connector (http : Http) (connector_id : String) :
    Except String Json := do
  let response ← FivetranClient.make_request http "GET" ("connectors/" ++ connector_id) none
  response.getD "data" (Json.obj [])

/-- Embeds `FivetranClient.activate_connector` (fivetran_client.py lines 96–109):
PATCH the connector with body `paused = false`. -/
def FivetranClient.activate_connector (http : Http) (connector_id : String) :
    Except String Json := do
  let response ← FivetranClient.make_request http "PATCH" ("connectors/" ++ connector_id)
    (some [("paused", Json.bool false)])
  response.getD "data" (Json.obj [])

/-- Embeds `FivetranClient.pause_connector` (fivetran_client.py lines 111–124):
PATCH the connector with body `paused = true`. -/
def FivetranClient.pause_connector (http : Http) (connector_id : String) :
    Except String Json := do
  let response ← FivetranClient.make_request http "PATCH" ("connectors/" ++ connector_id)
    (some [("paused", Json.bool true)])
  response.getD "data" (Json.obj [])

/-- Embeds `FivetranClient.sync_connector` (fivetran_client.py lines 126–140):
POST to `connectors/id/force` when `force`, else to `connectors/id/sync`. -/
def FivetranClient.sync_connector (http : Http) (connector_id : String) (force : Bool) :
    Except String Json := do
  let response ← FivetranClient.make_request http "POST"
    ("connectors/" ++ connector_id ++ "/" ++ (if force then "force" else "sync")) none
  response.getD "data" (Json.obj [])

/-- Embeds `FivetranClient.resync_table` (fivetran_client.py lines 142–157). -/
def FivetranClient.resync_table (http : Http) (connector_id schema table : String) :
    Except String Json := do
  let response ← FivetranClient.make_request http "POST"
    ("connectors/" ++ connector_id ++ "/schemas/" ++ schema ++ "/tables/" ++ table ++ "/resync")
    none
  response.getD "data" (Json.obj [])

/-- Embeds `FivetranClient.get_connector_schemas` (fivetran_client.py lines 159–170). -/
def FivetranClient.get_connector_schemas (http : Http) (connector_id : String) :
    Except String Json := do
  let response ← FivetranClient.make_request http "GET"
    ("connectors/" ++ connector_id ++ "/schemas") none
  response.getD "data" (Json.obj [])

/-- Embeds `FivetranClient.update_connector_schema` (fivetran_client.py lines
172–195): PATCH the table path with body `enabled = enabled`. -/
def FivetranClient.update_connector_schema (http : Http)
    (connector_id schema table : String) (enabled : Bool) : Except String Json := do
  let response ← FivetranClient.make_request http "PATCH"
    ("connectors/" ++ connector_id ++ "/schemas/" ++ schema ++ "/tables/" ++ table)
    (some [("enabled", Json.bool enabled)])
  response.getD "data" (Json.obj [])

/-- Embeds `FivetranClient.list_groups` (fivetran_client.py lines 197–205). -/
def FivetranClient.list_groups (http : Http) : Except String Json := do
  let response ← FivetranClient.make_request http "GET" "groups" none
  let data ← response.getD "data" (Json.obj [])
  data.getD "items" (Json.arr [])

/-- Embeds `FivetranClient.test_connection` (fivetran_client.py lines 220–231). -/
def FivetranClient.test_connection (http : Http) (connector_id : String) :
    Except String Json := do
  let response ← FivetranClient.make_request http "POST"
    ("connectors/" ++ connector_id ++ "/test") none
  response.getD "data" (Json.obj [])

/-- Per-connector summary record built inside
`FivetranAPI.get_all_connectors` (api.py lines 40–52), field by field in
source order. The derived `status` field is
`"Active" if not connector.get("paused") else "Paused"`. -/
def formatConnector (c : Json) : Except String Obj := do
  let id ← c.get "id"
  let name ← c.get "schema"
  let service ← c.get "service"
  let pausedRaw ← c.get "paused"
  let statusObj ← c.getD "status" (Json.obj [])
  let syncState ← statusObj.get "sync_state"
  let statusObj2 ← c.getD "status" (Json.obj [])
  let setupState ← statusObj2.get "setup_state"
  let lastSync ← c.get "succeeded_at"
  let failedAt ← c.get "failed_at"
  let pausedEmit ← c.getD "paused" (Json.bool false)
  let groupId ← c.get "group_id"
  .ok [("id", id), ("name", name), ("service", service),
       ("status", Json.str (if pausedRaw.truthy then "Paused" else "Active")),
       ("sync_state", syncState), ("setup_state", setupState),
       ("last_sync", lastSync), ("failed_at", failedAt),
       ("paused", pausedEmit), ("group_id", groupId)]

/-- The `for connector in connectors: formatted.append(...)` loop of
`FivetranAPI.get_all_connectors`: format each element in order, aborting
on the first element that raises. -/
def formatAll : List Json → Except String (List Obj)
  | [] => .ok []
  | c :: cs => do
    let r ← formatConnector c
    let rs ← formatAll cs
    .ok (r :: rs)

/-- Embeds `FivetranAPI.get_all_connectors` (api.py lines 26–57): list, iterate,
format; any exception is logged and re-raised unchanged. -/
def FivetranAPI.get_all_connectors (http : Http) (group_id : Option String) :
    Except String (List Obj) := do
  let connectors ← FivetranClient.list_connectors http group_id
  let items ← connectors.pyIter
  formatAll items

/-- Per-connector detail record built inside
`FivetranAPI.get_connector_details` (api.py lines 71–87), field by field
in source order. Its `status` field is the raw nested status object. -/
def detailRecord (c : Json) : Except String Obj := do
  let id ← c.get "id"
  let name ← c.get "schema"
  let service ← c.get "service"
  let paused ← c.get "paused"
  let syncFrequency ← c.get "sync_frequency"
  let dailySyncTime ← c.get "daily_sync_time"
  let scheduleType ← c.get "schedule_type"
  let status ← c.get "status"
  let statusObj ← c.getD "status" (Json.obj [])
  let setupState ← statusObj.get "setup_state"
  let statusObj2 ← c.getD "status" (Json.obj [])
  let syncState ← statusObj2.get "sync_state"
  let statusObj3 ← c.getD "status" (Json.obj [])
  let updateState ← statusObj3.get "update_state"
  let succeededAt ← c.get "succeeded_at"
  let failedAt ← c.get "failed_at"
  let config ← c.get "config"
  let groupId ← c.get "group_id"
  .ok [("id", id), ("name", name), ("service", service),
       ("paused", paused), ("sync_frequency", syncFrequency),
       ("daily_sync_time", dailySyncTime), ("schedule_type", scheduleType),
       ("status", status), ("setup_state", setupState),
       ("sync_state", syncState), ("update_state", updateState),
       ("succeeded_at", succeededAt), ("failed_at", failedAt),
       ("config", config), ("group_id", groupId)]

/-- Embeds `FivetranAPI.get_connector_details` (api.py lines 59–90): fetch and
reshape; any exception is logged and re-raised unchanged. -/
def FivetranAPI.get_connector_details (http : Http) (connector_id : String) :
    Except String Obj := do
  let connector ← FivetranClient.get_connector http connector_id
  detailRecord connector

/-- The Active/Paused value the presentation layer derives for the detail
view (app.py line 231): `"Active" if not details.get('paused') else
"Paused"`, applied to the record returned by `get_connector_details`. -/
def appDetailStatus (details : Obj) : String :=
  if (objGet details "paused").truthy then "Paused" else "Active"

/-- Embeds `FivetranAPI.activate_connector` (api.py lines 92–107): wrap the client
call into the uniform result object. -/
def FivetranAPI.activate_connector (http : Http) (connector_id : String) : Obj :=
  match FivetranClient.activate_connector http connector_id with
  | .ok result =>
    [("success", Json.bool true), ("message", Json.str "Connector activated"),
     ("data", result)]
  | .error e => [("success", Json.bool false), ("message", Json.str e)]

/-- Embeds `FivetranAPI.pause_connector` (api.py lines 109–124). -/
def FivetranAPI.pause_connector (http : Http) (connector_id : String) : Obj :=
  match FivetranClient.pause_connector http connector_id with
  | .ok result =>
    [("success", Json.bool true), ("message", Json.str "Connector paused"),
     ("data", result)]
  | .error e => [("success", Json.bool false), ("message", Json.str e)]

/-- Embeds `FivetranAPI.sync_connector` (api.py lines 126–143): the success
message interpolates `"force sync"` or `"sync"`. -/
def FivetranAPI.sync_connector (http : Http) (connector_id : String) (force : Bool) : Obj :=
  match FivetranClient.sync_connector http connector_id force with
  | .ok result =>
    [("success", Json.bool true),
     ("message", Json.str ("Connector " ++ (if force then "force sync" else "sync")
       ++ " triggered")),
     ("data", result)]
  | .error e => [("success", Json.bool false), ("message", Json.str e)]

/-- Embeds `FivetranAPI.get_connector_schemas` (api.py lines 145–160): the success
branch returns only `success` and `data` — no `message` field. -/
def FivetranAPI.get_connector_schemas (http : Http) (connector_id : String) : Obj :=
  match FivetranClient.get_connector_schemas http connector_id with
  | .ok schemas => [("success", Json.bool true), ("data", schemas)]
  | .error e => [("success", Json.bool false), ("message", Json.str e)]

/-- Embeds `FivetranAPI.resync_table` (api.py lines 162–179). -/
def FivetranAPI.resync_table (http : Http) (connector_id schema table : String) : Obj :=
  match FivetranClient.resync_table http connector_id schema table with
  | .ok result =>
    [("success", Json.bool true),
     ("message", Json.str ("Table " ++ schema ++ "." ++ table ++ " resync triggered")),
     ("data", result)]
  | .error e => [("success", Json.bool false), ("message", Json.str e)]

/-- Embeds `FivetranAPI.toggle_table` (api.py lines 181–206). -/
def FivetranAPI.toggle_table (http : Http) (connector_id schema table : String)
    (enabled : Bool) : Obj :=
  match FivetranClient.update_connector_schema http connector_id schema table enabled with
  | .ok result =>
    [("success", Json.bool true),
     ("message", Json.str ("Table " ++ schema ++ "." ++ table ++ " "
       ++ (if enabled then "enabled" else "disabled"))),
     ("data", result)]
  | .error e => [("success", Json.bool false), ("message", Json.str e)]

/-- Per-group record built inside `FivetranAPI.get_all_groups`
(api.py lines 219–224). -/
def formatGroup (g : Json) : Except String Obj := do
  let id ← g.get "id"
  let name ← g.get "name"
  let createdAt ← g.get "created_at"
  .ok [("id", id), ("name", name), ("created_at", createdAt)]

/-- The formatting loop of `FivetranAPI.get_all_groups`. -/
def formatGroups : List Json → Except String (List Obj)
  | [] => .ok []
  | g :: gs => do
    let r ← formatGroup g
    let rs ← formatGroups gs
    .ok (r :: rs)

/-- Embeds `FivetranAPI.get_all_groups` (api.py lines 208–229): list, iterate,
format; any exception is logged and re-raised unchanged. -/
def FivetranAPI.get_all_groups (http : Http) : Except String (List Obj) := do
  let groups ← FivetranClient.list_groups http
  let items ← groups.pyIter
  formatGroups items

/-- Embeds `FivetranAPI.test_connection` (api.py lines 231–246). -/
def FivetranAPI.test_connection (http : Http) (connector_id : String) : Obj :=
  match FivetranClient.test_connection http connector_id with
  | .ok result =>
    [("success", Json.bool true), ("message", Json.str "Connection test completed"),
     ("data", result)]
  | .error e => [("success", Json.bool false), ("message", Json.str e)]

/-- Substring containment on strings, used to state the message-content
properties of the spec. -/
def strContains (s pat : String) : Prop :=
  pat.toList <:+: s.toList

instance (s pat : String) : Decidable (strContains s pat) :=
  inferInstanceAs (Decidable (pat.toList <:+: s.toList))

/-- A network oracle that answers `out` exactly for one request shape
(matching method, URL and a predicate on the body) and fails with a
transport error on every other request. An operation that succeeds against
this oracle therefore issued precisely the expected request. -/
def exactOracle (method url : String) (bodyGuard : Option Obj → Bool)
    (out : HttpOutcome) : Http :=
  fun r => if r.method = method ∧ r.url = url ∧ bodyGuard r.body then out
    else HttpOutcome.netFail "unexpected request"

/-- Recognizes the body `\x7b"enabled": true\x7d` sent by
`update_connector_schema` when enabling a table. -/
def isEnabledTrueBody : Option Obj → Bool
  | some [("enabled", Json.bool true)] => true
  | _ => false

/-- The uniform result shape produced by the wrapped domain operations
other than `get_connector_schemas`: on success `success`, `message` and
`data`; on failure `success` and `message`. -/
def wrappedShape (o : Obj) : Prop :=
  (∃ m d, o = [("success", Json.bool true), ("message", Json.str m), ("data", d)]) ∨
  (∃ m, o = [("success", Json.bool false), ("message", Json.str m)])

/-- The result shape produced by `get_connector_schemas`: its success
branch carries no `message` field. -/
def schemasShape (o : Obj) : Prop :=
  (∃ d, o = [("success", Json.bool true), ("data", d)]) ∨
  (∃ m, o = [("success", Json.bool false), ("message", Json.str m)])

theorem wrappedShape_of_match (r : Except String Json) (msg : String) :
    wrappedShape (match r with
      | .ok result =>
        [("success", Json.bool true), ("message", Json.str msg), ("data", result)]
      | .error e => [("success", Json.bool false), ("message", Json.str e)]) := by
  cases r with
  | ok v => exact Or.inl ⟨msg, v, rfl⟩
  | error e => exact Or.inr ⟨e, rfl⟩

/-- C1: for every wrapped domain operation (activate, pause, sync,
getSchemas, resyncTable, toggleTable, testConnection) and every error
raised by the underlying client call, the operation does not raise and
returns `success = false` with the stringified cause as `message`. -/
theorem c1_wrapped_ops_catch_client_errors (http : Http)
    (cid schema table e : String) (force enabled : Bool) :
    (FivetranClient.activate_connector http cid = .error e →
      FivetranAPI.activate_connector http cid =
        [("success", Json.bool false), ("message", Json.str e)])
    ∧ (FivetranClient.pause_connector http cid = .error e →
      FivetranAPI.pause_connector http cid =
        [("success", Json.bool false), ("message", Json.str e)])
    ∧ (FivetranClient.sync_connector http cid force = .error e →
      FivetranAPI.sync_connector http cid force =
        [("success", Json.bool false), ("message", Json.str e)])
    ∧ (FivetranClient.get_connector_schemas http cid = .error e →
      FivetranAPI.get_connector_schemas http cid =
        [("success", Json.bool false), ("message", Json.str e)])
    ∧ (FivetranClient.resync_table http cid schema table = .error e →
      FivetranAPI.resync_table http cid schema table =
        [("success", Json.bool false), ("message", Json.str e)])
    ∧ (FivetranClient.update_connector_schema http cid schema table enabled = .error e →
      FivetranAPI.toggle_table http cid schema table enabled =
        [("success", Json.bool false), ("message", Json.str e)])
    ∧ (FivetranClient.test_connection http cid = .error e →
      FivetranAPI.test_connection http cid =
        [("success", Json.bool false), ("message", Json.str e)]) := by
  refine ⟨fun h => ?_, fun h => ?_, fun h => ?_, fun h => ?_, fun h => ?_,
    fun h => ?_, fun h => ?_⟩ <;>
    simp [FivetranAPI.activate_connector, FivetranAPI.pause_connector,
      FivetranAPI.sync_connector, FivetranAPI.get_connector_schemas,
      FivetranAPI.resync_table, FivetranAPI.toggle_table,
      FivetranAPI.test_connection, h]

/-- Witness for C1 at an always-failing network oracle. -/
theorem c1_wrapped_ops_catch_client_errors_witness :
    FivetranAPI.activate_connector (fun _ => HttpOutcome.netFail "boom") "c1" =
      [("success", Json.bool false), ("message", Json.str "boom")]
    ∧ FivetranAPI.pause_connector (fun _ => HttpOutcome.netFail "boom") "c1" =
      [("success", Json.bool false), ("message", Json.str "boom")]
    ∧ FivetranAPI.sync_connector (fun _ => HttpOutcome.netFail "boom") "c1" true =
      [("success", Json.bool false), ("message", Json.str "boom")]
    ∧ FivetranAPI.get_connector_schemas (fun _ => HttpOutcome.netFail "boom") "c1" =
      [("success", Json.bool false), ("message", Json.str "boom")]
    ∧ FivetranAPI.resync_table (fun _ => HttpOutcome.netFail "boom") "c1" "public" "orders" =
      [("success", Json.bool false), ("message", Json.str "boom")]
    ∧ FivetranAPI.toggle_table (fun _ => HttpOutcome.netFail "boom") "c1" "public" "orders" true =
      [("success", Json.bool false), ("message", Json.str "boom")]
    ∧ FivetranAPI.test_connection (fun _ => HttpOutcome.netFail "boom") "c1" =
      [("success", Json.bool false), ("message", Json.str "boom")] := by
  obtain ⟨h1, h2, h3, h4, h5, h6, h7⟩ :=
    c1_wrapped_ops_catch_client_errors (fun _ => HttpOutcome.netFail "boom")
      "c1" "public" "orders" "boom" true true
  exact ⟨h1 rfl, h2 rfl, h3 rfl, h4 rfl, h5 rfl, h6 rfl, h7 rfl⟩

/-- C2: each of the three read-list operations re-raises any error from
the underlying client call unchanged, instead of wrapping it. -/
theorem c2_read_ops_propagate_errors (http : Http) (gid : Option String)
    (cid e : String) :
    (FivetranClient.list_groups http = .error e →
      FivetranAPI.get_all_groups http = .error e)
    ∧ (FivetranClient.list_connectors http gid = .error e →
      FivetranAPI.get_all_connectors http gid = .error e)
    ∧ (FivetranClient.get_connector http cid = .error e →
      FivetranAPI.get_connector_details http cid = .error e) := by
  refine ⟨fun h => ?_, fun h => ?_, fun h => ?_⟩ <;>
    · simp [FivetranAPI.get_all_groups, FivetranAPI.get_all_connectors,
        FivetranAPI.get_connector_details, h]
      rfl

/-- Witness for C2 at an always-failing network oracle. -/
theorem c2_read_ops_propagate_errors_witness :
    FivetranAPI.get_all_groups (fun _ => HttpOutcome.netFail "boom") = .error "boom"
    ∧ FivetranAPI.get_all_connectors (fun _ => HttpOutcome.netFail "boom") none = .error "boom"
    ∧ FivetranAPI.get_connector_details (fun _ => HttpOutcome.netFail "boom") "c1" =
      .error "boom" := by
  obtain ⟨h1, h2, h3⟩ :=
    c2_read_ops_propagate_errors (fun _ => HttpOutcome.netFail "boom") none "c1" "boom"
  exact ⟨h1 rfl, h2 rfl, h3 rfl⟩

/-- C5 counterexample: the success result of `get_connector_schemas`
(api.py line 157) has no `message` field at all, so not every wrapped
operation's success result contains a string message. -/
theorem c5_counterexample :
    FivetranAPI.get_connector_schemas
      (fun _ => HttpOutcome.response 200 (Json.obj [("data", Json.obj [])])) "c1" =
      [("success", Json.bool true), ("data", Json.obj [])]
    ∧ List.lookup "message"
      (FivetranAPI.get_connector_schemas
        (fun _ => HttpOutcome.response 200 (Json.obj [("data", Json.obj [])])) "c1") =
      none :=
  ⟨rfl, rfl⟩

/-- C5 (amended): every wrapped domain operation returns an object drawn
from the uniform shape with boolean `success`, string `message` and
optional `data`; all of them carry a string `message` in both branches
except `get_connector_schemas`, whose success result carries only
`success` and `data` (its failure result still carries a message). -/
theorem c5_wrapped_ops_result_shape (http : Http) (cid schema table : String)
    (force enabled : Bool) :
    wrappedShape (FivetranAPI.activate_connector http cid)
    ∧ wrappedShape (FivetranAPI.pause_connector http cid)
    ∧ wrappedShape (FivetranAPI.sync_connector http cid force)
    ∧ wrappedShape (FivetranAPI.resync_table http cid schema table)
    ∧ wrappedShape (FivetranAPI.toggle_table http cid schema table enabled)
    ∧ wrappedShape (FivetranAPI.test_connection http cid)
    ∧ schemasShape (FivetranAPI.get_connector_schemas http cid) := by
  refine ⟨?_, ?_, ?_, ?_, ?_, ?_, ?_⟩
  · exact wrappedShape_of_match (FivetranClient.activate_connector http cid) _
  · exact wrappedShape_of_match (FivetranClient.pause_connector http cid) _
  · exact wrappedShape_of_match (FivetranClient.sync_connector http cid force) _
  · exact wrappedShape_of_match (FivetranClient.resync_table http cid schema table) _
  · exact wrappedShape_of_match
      (FivetranClient.update_connector_schema http cid schema table enabled) _
  · exact wrappedShape_of_match (FivetranClient.test_connection http cid) _
  · cases h : FivetranClient.get_connector_schemas http cid with
    | ok v => exact Or.inl ⟨v, by simp [FivetranAPI.get_connector_schemas, h]⟩
    | error e => exact Or.inr ⟨e, by simp [FivetranAPI.get_connector_schemas, h]⟩

theorem except_error_bind {α β : Type} (e : String) (f : α → Except String β) :
    (Except.error e >>= f : Except String β) = Except.error e := rfl

theorem except_ok_bind {α β : Type} (a : α) (f : α → Except String β) :
    (Except.ok a >>= f : Except String β) = f a := rfl

theorem formatAll_mem {cs : List Json} {recs : List Obj}
    (h : formatAll cs = .ok recs) :
    ∀ rec ∈ recs, ∃ c, formatConnector c = .ok rec := by
  induction cs generalizing recs with
  | nil =>
    simp [formatAll] at h
    subst h
    intro rec hrec
    simp at hrec
  | cons c cs ih =>
    rcases hc : formatConnector c with e | r
    · simp [formatAll, hc, except_error_bind] at h
    · rcases hcs : formatAll cs with e | rs
      · simp [formatAll, hc, hcs, except_ok_bind, except_error_bind] at h
      · simp [formatAll, hc, hcs, except_ok_bind, except_error_bind] at h
        subst h
        intro rec hrec
        rcases List.mem_cons.mp hrec with heq | hmem
        · exact ⟨c, heq ▸ hc⟩
        · exact ih hcs rec hmem

theorem formatConnector_consistent (c : Json) (rec : Obj) (b : Bool)
    (h : formatConnector c = .ok rec)
    (hp : List.lookup "paused" rec = some (Json.bool b)) :
    List.lookup "status" rec = some (Json.str (if b then "Paused" else "Active")) := by
  cases c with
  | obj fs =>
    rcases hst : (List.lookup "status" fs).getD (Json.obj []) with _ | b' | n | s | xs | gs <;>
      simp [formatConnector, Json.get, Json.getD, hst, except_ok_bind, except_error_bind] at h
    subst h
    rcases hpl : List.lookup "paused" fs with _ | v
    · simp [List.lookup, hpl, Json.truthy] at hp ⊢
      simp [hp]
    · simp [List.lookup, hpl] at hp ⊢
      subst hp
      simp [Json.truthy]
  | null => simp [formatConnector, Json.get, except_error_bind] at h
  | bool b' => simp [formatConnector, Json.get, except_error_bind] at h
  | num n => simp [formatConnector, Json.get, except_error_bind] at h
  | str s => simp [formatConnector, Json.get, except_error_bind] at h
  | arr xs => simp [formatConnector, Json.get, except_error_bind] at h

/-- C3: in every record emitted by `get_all_connectors` whose `paused`
field is the boolean `b`, the derived `status` field is `"Paused"` when
`b` is true and `"Active"` when `b` is false — the two fields never
disagree, for any network oracle and any raw payload. -/
theorem c3_status_iff_paused (http : Http) (gid : Option String)
    (recs : List Obj) (h : FivetranAPI.get_all_connectors http gid = .ok recs) :
    ∀ rec ∈ recs, ∀ b : Bool, List.lookup "paused" rec = some (Json.bool b) →
      List.lookup "status" rec = some (Json.str (if b then "Paused" else "Active")) := by
  rcases h1 : FivetranClient.list_connectors http gid with e | v
  · simp [FivetranAPI.get_all_connectors, h1, except_error_bind] at h
  · rcases h2 : v.pyIter with e | items
    · simp [FivetranAPI.get_all_connectors, h1, h2, except_ok_bind, except_error_bind] at h
    · simp [FivetranAPI.get_all_connectors, h1, h2, except_ok_bind, except_error_bind] at h
      intro rec hrec b hb
      obtain ⟨c, hc⟩ := formatAll_mem h rec hrec
      exact formatConnector_consistent c rec b hc hb

/-- Witness for C3: a connector payload with `paused = true` is emitted
with `status = "Paused"`. -/
theorem c3_status_iff_paused_witness :
    FivetranAPI.get_all_connectors
      (fun _ => HttpOutcome.response 200
        (Json.obj [("data",
          Json.obj [("items", Json.arr [Json.obj [("paused", Json.bool true)]])])]))
      none =
      .ok [[("id", Json.null), ("name", Json.null), ("service", Json.null),
            ("status", Json.str "Paused"),
            ("sync_state", Json.null), ("setup_state", Json.null),
            ("last_sync", Json.null), ("failed_at", Json.null),
            ("paused", Json.bool true), ("group_id", Json.null)]]
    ∧ List.lookup "status"
        [("id", Json.null), ("name", Json.null), ("service", Json.null),
         ("status", Json.str "Paused"),
         ("sync_state", Json.null), ("setup_state", Json.null),
         ("last_sync", Json.null), ("failed_at", Json.null),
         ("paused", Json.bool true), ("group_id", Json.null)] =
      some (Json.str (if true then "Paused" else "Active")) := by
  refine ⟨rfl, ?_⟩
  exact c3_status_iff_paused
    (fun _ => HttpOutcome.response 200
      (Json.obj [("data",
        Json.obj [("items", Json.arr [Json.obj [("paused", Json.bool true)]])])]))
    none
    [[("id", Json.null), ("name", Json.null), ("service", Json.null),
      ("status", Json.str "Paused"),
      ("sync_state", Json.null), ("setup_state", Json.null),
      ("last_sync", Json.null), ("failed_at", Json.null),
      ("paused", Json.bool true), ("group_id", Json.null)]]
    rfl
    [("id", Json.null), ("name", Json.null), ("service", Json.null),
     ("status", Json.str "Paused"),
     ("sync_state", Json.null), ("setup_state", Json.null),
     ("last_sync", Json.null), ("failed_at", Json.null),
     ("paused", Json.bool true), ("group_id", Json.null)]
    (List.mem_cons_self _ _) true rfl

/-- C6 (amended): the Active/Paused value the presentation layer derives
for the detail view from the record emitted by `get_connector_details`
uses the same truthiness rule on the same `paused` flag as the summary
projection, so for every raw payload the summary record's derived
`status` equals the detail view's derived status. -/
theorem c6_detail_status_same_rule (c : Json) (rec recD : Obj)
    (h1 : formatConnector c = .ok rec) (h2 : detailRecord c = .ok recD) :
    List.lookup "status" rec = some (Json.str (appDetailStatus recD)) := by
  cases c with
  | obj fs =>
    rcases hst : (List.lookup "status" fs).getD (Json.obj []) with _ | b' | n | s | xs | gs <;>
      simp [formatConnector, detailRecord, Json.get, Json.getD, hst,
        except_ok_bind, except_error_bind] at h1 h2
    subst h1
    subst h2
    simp [List.lookup, appDetailStatus, objGet]
  | null => simp [formatConnector, Json.get, except_error_bind] at h1
  | bool b' => simp [formatConnector, Json.get, except_error_bind] at h1
  | num n => simp [formatConnector, Json.get, except_error_bind] at h1
  | str s => simp [formatConnector, Json.get, except_error_bind] at h1
  | arr xs => simp [formatConnector, Json.get, except_error_bind] at h1

/-- C6 counterexample: `get_connector_details` itself performs no
Active/Paused derivation — its emitted `status` field is the raw nested
status object (here `null`), which differs from the summary projection's
derived `status` for the same payload. -/
theorem c6_counterexample :
    formatConnector (Json.obj [("paused", Json.bool true)]) =
      .ok [("id", Json.null), ("name", Json.null), ("service", Json.null),
           ("status", Json.str "Paused"),
           ("sync_state", Json.null), ("setup_state", Json.null),
           ("last_sync", Json.null), ("failed_at", Json.null),
           ("paused", Json.bool true), ("group_id", Json.null)]
    ∧ detailRecord (Json.obj [("paused", Json.bool true)]) =
      .ok [("id", Json.null), ("name", Json.null), ("service", Json.null),
           ("paused", Json.bool true), ("sync_frequency", Json.null),
           ("daily_sync_time", Json.null), ("schedule_type", Json.null),
           ("status", Json.null), ("setup_state", Json.null),
           ("sync_state", Json.null), ("update_state", Json.null),
           ("succeeded_at", Json.null), ("failed_at", Json.null),
           ("config", Json.null), ("group_id", Json.null)]
    ∧ List.lookup "status"
        [("id", Json.null), ("name", Json.null), ("service", Json.null),
         ("status", Json.str "Paused"),
         ("sync_state", Json.null), ("setup_state", Json.null),
         ("last_sync", Json.null), ("failed_at", Json.null),
         ("paused", Json.bool true), ("group_id", Json.null)] =
        some (Json.str "Paused")
    ∧ List.lookup "status"
        [("id", Json.null), ("name", Json.null), ("service", Json.null),
         ("paused", Json.bool true), ("sync_frequency", Json.null),
         ("daily_sync_time", Json.null), ("schedule_type", Json.null),
         ("status", Json.null), ("setup_state", Json.null),
         ("sync_state", Json.null), ("update_state", Json.null),
         ("succeeded_at", Json.null), ("failed_at", Json.null),
         ("config", Json.null), ("group_id", Json.null)] =
        some Json.null
    ∧ some Json.null ≠ some (Json.str "Paused") := by
  refine ⟨rfl, rfl, rfl, rfl, ?_⟩
  simp

/-- Witness for the amended C6 at the payload with `paused = true`. -/
theorem c6_detail_status_same_rule_witness :
    List.lookup "status"
      [("id", Json.null), ("name", Json.null), ("service", Json.null),
       ("status", Json.str "Paused"),
       ("sync_state", Json.null), ("setup_state", Json.null),
       ("last_sync", Json.null), ("failed_at", Json.null),
       ("paused", Json.bool true), ("group_id", Json.null)] =
      some (Json.str (appDetailStatus
        [("id", Json.null), ("name", Json.null), ("service", Json.null),
         ("paused", Json.bool true), ("sync_frequency", Json.null),
         ("daily_sync_time", Json.null), ("schedule_type", Json.null),
         ("status", Json.null), ("setup_state", Json.null),
         ("sync_state", Json.null), ("update_state", Json.null),
         ("succeeded_at", Json.null), ("failed_at", Json.null),
         ("config", Json.null), ("group_id", Json.null)])) :=
  c6_detail_status_same_rule (Json.obj [("paused", Json.bool true)])
    [("id", Json.null), ("name", Json.null), ("service", Json.null),
     ("status", Json.str "Paused"),
     ("sync_state", Json.null), ("setup_state", Json.null),
     ("last_sync", Json.null), ("failed_at", Json.null),
     ("paused", Json.bool true), ("group_id", Json.null)]
    [("id", Json.null), ("name", Json.null), ("service", Json.null),
     ("paused", Json.bool true), ("sync_frequency", Json.null),
     ("daily_sync_time", Json.null), ("schedule_type", Json.null),
     ("status", Json.null), ("setup_state", Json.null),
     ("sync_state", Json.null), ("update_state", Json.null),
     ("succeeded_at", Json.null), ("failed_at", Json.null),
     ("config", Json.null), ("group_id", Json.null)]
    rfl rfl

theorem strContains_append_left (a b pat : String) (h : strContains b pat) :
    strContains (a ++ b) pat := by
  unfold strContains at *
  have hab : (a ++ b).toList = a.toList ++ b.toList := by
    simp [String.toList, String.data_append]
  rw [hab]
  exact h.trans ((List.suffix_append a.toList b.toList).isInfix)

/-- C4: against a network oracle that accepts only a POST to
`connectors/id/sync` (resp. `connectors/id/force`) and fails every other
request, `sync` with `force = false` (resp. `true`) succeeds — so it
issues exactly that request — and its success message contains "sync" but
not "force sync" (resp. contains "force sync"). -/
theorem c4_sync_paths (cid : String) (j : Json) :
    FivetranAPI.sync_connector
      (exactOracle "POST"
        (FivetranClient.BASE_URL ++ "/" ++ ("connectors/" ++ cid ++ "/sync"))
        Option.isNone (HttpOutcome.response 200 (Json.obj [("data", j)])))
      cid false =
      [("success", Json.bool true),
       ("message", Json.str "Connector sync triggered"), ("data", j)]
    ∧ FivetranAPI.sync_connector
      (exactOracle "POST"
        (FivetranClient.BASE_URL ++ "/" ++ ("connectors/" ++ cid ++ "/force"))
        Option.isNone (HttpOutcome.response 200 (Json.obj [("data", j)])))
      cid true =
      [("success", Json.bool true),
       ("message", Json.str "Connector force sync triggered"), ("data", j)]
    ∧ strContains "Connector sync triggered" "sync"
    ∧ ¬ strContains "Connector sync triggered" "force sync"
    ∧ strContains "Connector force sync triggered" "force sync" := by
  have hurl1 : "connectors/" ++ cid ++ "/" ++ "sync" = "connectors/" ++ cid ++ "/sync" := by
    simp [String.append_assoc]
  have hurl2 : "connectors/" ++ cid ++ "/" ++ "force" = "connectors/" ++ cid ++ "/force" := by
    simp [String.append_assoc]
  refine ⟨?_, ?_, by decide, by decide, by decide⟩
  · simp [FivetranAPI.sync_connector, FivetranClient.sync_connector,
      FivetranClient.make_request, mkRequest, exactOracle, hurl1, raiseForStatus,
      Json.getD]
    rfl
  · simp [FivetranAPI.sync_connector, FivetranClient.sync_connector,
      FivetranClient.make_request, mkRequest, exactOracle, hurl2, raiseForStatus,
      Json.getD]
    rfl

/-- C8: against a network oracle that accepts only a PATCH to
`connectors/id/schemas/schema/tables/table` whose body is exactly
`enabled = true`, answering any 2xx status, `toggle_table` with
`enabled = true` returns `success = true` with a message containing
"enabled" — so it issues exactly that request with that body. -/
theorem c8_toggle_table_request (cid schema table : String) (j : Json) (s : Nat)
    (hs : 200 ≤ s ∧ s < 300) :
    FivetranAPI.toggle_table
        (exactOracle "PATCH"
          (FivetranClient.BASE_URL ++ "/" ++
            ("connectors/" ++ cid ++ "/schemas/" ++ schema ++ "/tables/" ++ table))
          isEnabledTrueBody (HttpOutcome.response s (Json.obj [("data", j)])))
        cid schema table true =
      [("success", Json.bool true),
       ("message", Json.str ("Table " ++ schema ++ "." ++ table ++ " enabled")),
       ("data", j)]
    ∧ strContains ("Table " ++ schema ++ "." ++ table ++ " enabled") "enabled" := by
  have hnf : ¬ (400 ≤ s ∧ s < 600) := by omega
  have hmsg : "Table " ++ schema ++ "." ++ table ++ " " ++ "enabled" =
      "Table " ++ schema ++ "." ++ table ++ " enabled" := by
    simp [String.append_assoc]
  constructor
  · simp [FivetranAPI.toggle_table, FivetranClient.update_connector_schema,
      FivetranClient.make_request, mkRequest, exactOracle, isEnabledTrueBody,
      raiseForStatus, hnf, Json.getD, hmsg]
    rfl
  · exact strContains_append_left ("Table " ++ schema ++ "." ++ table) " enabled"
      "enabled" (by decide)

/-- C10: with an empty-string group id, `list_connectors` behaves
identically to being called with no group id at all — for every network
oracle — and it targets the global `connectors` endpoint. -/
theorem c10_empty_group_global (http : Http) (j : Json) :
    FivetranClient.list_connectors http (some "") = FivetranClient.list_connectors http none
    ∧ FivetranClient.list_connectors
        (exactOracle "GET" (FivetranClient.BASE_URL ++ "/" ++ "connectors") Option.isNone
          (HttpOutcome.response 200
            (Json.obj [("data", Json.obj [("items", Json.arr [j])])])))
        (some "") = .ok (Json.arr [j]) := by
  constructor
  · rfl
  · simp [FivetranClient.list_connectors, connectorsEndpoint,
      FivetranClient.make_request, mkRequest, exactOracle, raiseForStatus,
      Json.getD, except_ok_bind]

/-- Witness for C8 at connector "c1", schema "public", table "orders",
status 200. -/
theorem c8_toggle_table_request_witness :
    FivetranAPI.toggle_table
        (exactOracle "PATCH"
          (FivetranClient.BASE_URL ++ "/" ++
            ("connectors/" ++ "c1" ++ "/schemas/" ++ "public" ++ "/tables/" ++ "orders"))
          isEnabledTrueBody (HttpOutcome.response 200 (Json.obj [("data", Json.obj [])])))
        "c1" "public" "orders" true =
      [("success", Json.bool true),
       ("message", Json.str ("Table " ++ "public" ++ "." ++ "orders" ++ " enabled")),
       ("data", Json.obj [])]
    ∧ strContains ("Table " ++ "public" ++ "." ++ "orders" ++ " enabled") "enabled" :=
  c8_toggle_table_request "c1" "public" "orders" (Json.obj []) 200 (by omega)

/-- C7: for every response envelope without a `data` key, or whose `data`
object has no `items` key, both list operations yield an empty sequence
(at the client layer an empty items list, at the domain layer an empty
formatted list) instead of raising. -/
theorem c7_missing_data_empty (gid : Option String) (fs : List (String × Json))
    (h : fs.lookup "data" = none ∨
      ∃ ds, fs.lookup "data" = some (Json.obj ds) ∧ ds.lookup "items" = none) :
    FivetranClient.list_connectors (fun _ => HttpOutcome.response 200 (Json.obj fs)) gid =
      .ok (Json.arr [])
    ∧ FivetranClient.list_groups (fun _ => HttpOutcome.response 200 (Json.obj fs)) =
      .ok (Json.arr [])
    ∧ FivetranAPI.get_all_connectors (fun _ => HttpOutcome.response 200 (Json.obj fs)) gid =
      .ok []
    ∧ FivetranAPI.get_all_groups (fun _ => HttpOutcome.response 200 (Json.obj fs)) =
      .ok [] := by
  have hcl : FivetranClient.list_connectors
      (fun _ => HttpOutcome.response 200 (Json.obj fs)) gid = .ok (Json.arr []) := by
    rcases h with h | ⟨ds, hd, hi⟩
    · simp [FivetranClient.list_connectors, FivetranClient.make_request, mkRequest,
        raiseForStatus, Json.getD, h, except_ok_bind, List.lookup]
    · simp [FivetranClient.list_connectors, FivetranClient.make_request, mkRequest,
        raiseForStatus, Json.getD, hd, hi, except_ok_bind]
  have hgl : FivetranClient.list_groups
      (fun _ => HttpOutcome.response 200 (Json.obj fs)) = .ok (Json.arr []) := by
    rcases h with h | ⟨ds, hd, hi⟩
    · simp [FivetranClient.list_groups, FivetranClient.make_request, mkRequest,
        raiseForStatus, Json.getD, h, except_ok_bind, List.lookup]
    · simp [FivetranClient.list_groups, FivetranClient.make_request, mkRequest,
        raiseForStatus, Json.getD, hd, hi, except_ok_bind]
  refine ⟨hcl, hgl, ?_, ?_⟩
  · simp [FivetranAPI.get_all_connectors, hcl, except_ok_bind, Json.pyIter, formatAll]
  · simp [FivetranAPI.get_all_groups, hgl, except_ok_bind, Json.pyIter, formatGroups]

/-- Witness for C7 at the completely empty envelope. -/
theorem c7_missing_data_empty_witness :
    FivetranClient.list_connectors (fun _ => HttpOutcome.response 200 (Json.obj [])) none =
      .ok (Json.arr [])
    ∧ FivetranClient.list_groups (fun _ => HttpOutcome.response 200 (Json.obj [])) =
      .ok (Json.arr [])
    ∧ FivetranAPI.get_all_connectors (fun _ => HttpOutcome.response 200 (Json.obj [])) none =
      .ok []
    ∧ FivetranAPI.get_all_groups (fun _ => HttpOutcome.response 200 (Json.obj [])) =
      .ok [] :=
  c7_missing_data_empty none [] (Or.inl rfl)

/-- C9 (amended): every request `_make_request` issues carries the fixed
timeout 30; a network-level failure raises with its cause and no body; a
4xx/5xx status raises through `raise_for_status` with no body; any other
status (2xx, but also e.g. 304) returns the parsed JSON body unmodified. -/
theorem c9_transport (http : Http) (m e c : String) (b : Option Obj)
    (s : Nat) (body : Json) :
    (mkRequest m e b).timeout = 30
    ∧ (http (mkRequest m e b) = .netFail c →
        FivetranClient.make_request http m e b = .error c)
    ∧ (http (mkRequest m e b) = .response s body → 400 ≤ s ∧ s < 600 →
        FivetranClient.make_request http m e b =
          .error ("HTTPError: status " ++ toString s))
    ∧ (http (mkRequest m e b) = .response s body → ¬ (400 ≤ s ∧ s < 600) →
        FivetranClient.make_request http m e b = .ok body) := by
  refine ⟨rfl, fun h => ?_, fun h hs => ?_, fun h hs => ?_⟩
  · simp [FivetranClient.make_request, h]
  · simp [FivetranClient.make_request, h, raiseForStatus, hs]
  · simp [FivetranClient.make_request, h, raiseForStatus, hs]

/-- Witness for C9 at concrete oracles for each of the three outcomes. -/
theorem c9_transport_witness :
    (mkRequest "GET" "groups" none).timeout = 30
    ∧ FivetranClient.make_request (fun _ => HttpOutcome.netFail "boom")
        "GET" "groups" none = .error "boom"
    ∧ FivetranClient.make_request (fun _ => HttpOutcome.response 500 Json.null)
        "GET" "groups" none = .error ("HTTPError: status " ++ toString 500)
    ∧ FivetranClient.make_request (fun _ => HttpOutcome.response 200 (Json.str "payload"))
        "GET" "groups" none = .ok (Json.str "payload") :=
  ⟨(c9_transport (fun _ => HttpOutcome.netFail "boom") "GET" "groups" "boom"
      none 0 Json.null).1,
   (c9_transport (fun _ => HttpOutcome.netFail "boom") "GET" "groups" "boom"
      none 0 Json.null).2.1 rfl,
   (c9_transport (fun _ => HttpOutcome.response 500 Json.null) "GET" "groups" "x"
      none 500 Json.null).2.2.1 rfl (by omega),
   (c9_transport (fun _ => HttpOutcome.response 200 (Json.str "payload")) "GET" "groups" "x"
      none 200 (Json.str "payload")).2.2.2 rfl (by omega)⟩

/-- C9 counterexample: a 304 response is not 2xx, yet the call does not
raise — it returns the parsed body, because `raise_for_status` only
raises for 4xx/5xx. -/
theorem c9_counterexample :
    FivetranClient.make_request (fun _ => HttpOutcome.response 304 (Json.str "cached"))
      "GET" "groups" none = .ok (Json.str "cached")
    ∧ ¬ (200 ≤ 304 ∧ 304 < 300) :=
  ⟨rfl, by omega⟩
